/-
Verification of the WhatsApp health triage agent (shallow embedding).

The Python sources `src/utils.py` and `src/lambda_function.py` are embedded
as executable Lean definitions: dictionaries become structures with optional
fields, AWS side effects (DynamoDB, S3, SNS) become explicit state passing,
and the OpenAI client / environment variables become oracle parameters.
-/
import Mathlib

set_option maxRecDepth 65536
set_option linter.unusedVariables false

/-! ## Substring containment (Python's `needle in haystack`) -/

/-- Scan of `needle in haystack` over explicit character lists: true when the
needle occurs as a contiguous run at some position. -/
def containsSubAux (needle : List Char) : List Char → Bool
  | [] => needle.isEmpty
  | c :: rest => needle.isPrefixOf (c :: rest) || containsSubAux needle rest

/-- Python's substring operator `needle in haystack` on strings. -/
def containsSub (haystack needle : String) : Bool :=
  containsSubAux needle.data haystack.data

theorem isPrefixOf_eq_true_iff (n l : List Char) :
    n.isPrefixOf l = true ↔ ∃ t, n ++ t = l := by
  induction n generalizing l with
  | nil => simp [List.isPrefixOf]
  | cons a as ih =>
    cases l with
    | nil => simp [List.isPrefixOf]
    | cons b bs =>
      simp only [List.isPrefixOf, Bool.and_eq_true, beq_iff_eq, ih, List.cons_append,
        List.cons.injEq]
      constructor
      · rintro ⟨rfl, t, rfl⟩; exact ⟨t, rfl, rfl⟩
      · rintro ⟨t, rfl, rfl⟩; exact ⟨rfl, t, rfl⟩

theorem containsSubAux_eq_true_iff (n h : List Char) :
    containsSubAux n h = true ↔ ∃ p t, p ++ n ++ t = h := by
  induction h with
  | nil =>
    simp only [containsSubAux, List.isEmpty_iff]
    constructor
    · rintro rfl; exact ⟨[], [], rfl⟩
    · rintro ⟨p, t, hpt⟩
      rcases List.append_eq_nil.mp hpt with ⟨hpn, ht⟩
      rcases List.append_eq_nil.mp hpn with ⟨hp, hn⟩
      exact hn
  | cons c rest ih =>
    simp only [containsSubAux, Bool.or_eq_true, isPrefixOf_eq_true_iff, ih]
    constructor
    · rintro (⟨t, ht⟩ | ⟨p, t, hpt⟩)
      · exact ⟨[], t, by simpa using ht⟩
      · exact ⟨c :: p, t, by simp [hpt]⟩
    · rintro ⟨p, t, hpt⟩
      cases p with
      | nil => exact Or.inl ⟨t, by simpa using hpt⟩
      | cons d ds =>
        have h2 : d = c ∧ ds ++ n ++ t = rest := by simpa using hpt
        exact Or.inr ⟨ds, t, h2.2⟩

theorem containsSub_eq_true_iff (h n : String) :
    containsSub h n = true ↔ ∃ p t, p ++ n.data ++ t = h.data :=
  containsSubAux_eq_true_iff n.data h.data

/-! ## Python string primitives (`str.lower`, `str.upper`, `str.strip`),
implemented over character lists so every definition evaluates by kernel
reduction. They cover the ASCII range the program's keywords, urgency labels
and whitespace use. -/

def charLower (c : Char) : Char :=
  if 65 ≤ c.toNat ∧ c.toNat ≤ 90 then Char.ofNat (c.toNat + 32) else c

/-- Python `str.lower()`. -/
def strLower (s : String) : String := ⟨s.data.map charLower⟩

def charUpper (c : Char) : Char :=
  if 97 ≤ c.toNat ∧ c.toNat ≤ 122 then Char.ofNat (c.toNat - 32) else c

/-- Python `str.upper()`. -/
def strUpper (s : String) : String := ⟨s.data.map charUpper⟩

/-- Python's whitespace class for `str.strip()`. -/
def isPyWs (c : Char) : Bool :=
  c.toNat == 32 || c.toNat == 9 || c.toNat == 10 || c.toNat == 13 ||
    c.toNat == 11 || c.toNat == 12

/-- Python `str.strip()`. -/
def strTrim (s : String) : String :=
  ⟨((s.data.dropWhile isPyWs).reverse.dropWhile isPyWs).reverse⟩

/-! ## Data model: triage results, conversations, alerts -/

/-- A triage result, `Dict[str, Any]` in the source. Each documented key is
optional because the LLM path returns whatever keys `json.loads` produced. -/
structure TriageDict where
  symptoms : Option (List String)
  duration : Option String
  age : Option String
  red_flags : Option (List String)
  urgency : Option String
deriving DecidableEq, Repr

/-- One history entry `{'timestamp': int(time.time()), 'message': message}`. -/
structure HistEntry where
  timestamp : Nat
  message : String
deriving DecidableEq, Repr

/-- The conversation record stored in DynamoDB (spec §3). -/
structure Conversation where
  user_id : String
  history : List HistEntry
  last_intent : Option String
  triage_level : Option String
  created_at : String
  updated_at : String
deriving DecidableEq, Repr

/-- One SNS publication: `sns_client.publish(TopicArn, Subject, Message)`. -/
structure SnsMsg where
  topic : String
  subject : String
  body : String
deriving DecidableEq, Repr

/-! ## Fallback classifier (`src/utils.py` lines 192-212) -/

def high_keywords : List String :=
  ["chest pain", "shortness of breath", "fainting", "unconscious"]

def medium_keywords : List String :=
  ["fever", "vomit", "infection", "severe pain"]

/-- Embedding of `fallback_classifier`: lower-case the message, scan the HIGH
keyword list with early exit (the Python `for`/`break`), and only when no HIGH
keyword matched (the `for`/`else`) scan the MEDIUM list; `List.find?` models
the first-match-breaks loop. -/
def fallback_classifier (msg : String) : TriageDict :=
  let text := strLower msg
  let urgency :=
    match high_keywords.find? (fun kw => containsSub text kw) with
    | some _ => "HIGH"
    | none =>
      match medium_keywords.find? (fun kw => containsSub text kw) with
      | some _ => "MEDIUM"
      | none => "LOW"
  { symptoms := some [msg], duration := some "", age := some "",
    red_flags := some [], urgency := some urgency }

/-! ## HMAC-SHA1 and base64 (`hashlib.sha1`, `hmac`, `base64.b64encode`)

The signature verifier recomputes an HMAC-SHA1 over UTF-8 bytes and base64
encodes it; we implement those primitives directly, over `List Nat` bytes
(each < 256) and 32-bit words (`Nat` reduced mod 2^32). -/

def pow32 : Nat := 4294967296

/-- Left-rotation of a 32-bit word by `n` bits. -/
def rotl (n x : Nat) : Nat := ((x <<< n) + (x >>> (32 - n))) % pow32

/-- Big-endian byte rendering of `v` into `n` bytes. -/
def toBytesBE (n v : Nat) : List Nat :=
  (List.range n).map (fun i => (v >>> (8 * (n - 1 - i))) % 256)

/-- SHA-1 padding: append 0x80, zero-pad to 56 mod 64, then the 64-bit
big-endian bit length. -/
def sha1Pad (msg : List Nat) : List Nat :=
  let len := msg.length
  let padZeros := (119 - len % 64) % 64
  msg ++ [0x80] ++ List.replicate padZeros 0 ++ toBytesBE 8 (len * 8)

/-- Group bytes into big-endian 32-bit words. -/
def bytesToWordsBE : List Nat → List Nat
  | a :: b :: c :: d :: rest => (((a * 256 + b) * 256 + c) * 256 + d) :: bytesToWordsBE rest
  | _ => []

/-- Extend the 16 chunk words to 80 by the SHA-1 word recurrence; `fuel`
counts the words still to be produced. -/
def extendWords : Nat → Array Nat → Array Nat
  | 0, w => w
  | Nat.succ k, w =>
    let i := w.size
    let x := Nat.xor (Nat.xor (w.getD (i - 3) 0) (w.getD (i - 8) 0))
      (Nat.xor (w.getD (i - 14) 0) (w.getD (i - 16) 0))
    extendWords k (w.push (rotl 1 x))

/-- SHA-1 round function (the three phases of the compression loop). -/
def sha1f (i b c d : Nat) : Nat :=
  if i < 20 then Nat.lor (Nat.land b c) (Nat.land (Nat.xor b 0xFFFFFFFF) d)
  else if i < 40 then Nat.xor (Nat.xor b c) d
  else if i < 60 then Nat.lor (Nat.lor (Nat.land b c) (Nat.land b d)) (Nat.land c d)
  else Nat.xor (Nat.xor b c) d

/-- SHA-1 round constants. -/
def sha1k (i : Nat) : Nat :=
  if i < 20 then 0x5A827999
  else if i < 40 then 0x6ED9EBA1
  else if i < 60 then 0x8F1BBCDC
  else 0xCA62C1D6

/-- The 80-round compression loop over the extended words. -/
def sha1Loop (i : Nat) (words : List Nat) (a b c d e : Nat) :
    Nat × Nat × Nat × Nat × Nat :=
  match words with
  | [] => (a, b, c, d, e)
  | w :: ws =>
    let temp := (rotl 5 a + sha1f i b c d + e + sha1k i + w) % pow32
    sha1Loop (i + 1) ws temp a (rotl 30 b) c d

/-- Process one 64-byte chunk, updating the five state words. -/
def sha1ProcessChunk (h : Nat × Nat × Nat × Nat × Nat) (chunk : List Nat) :
    Nat × Nat × Nat × Nat × Nat :=
  let w := extendWords 64 (Array.mk (bytesToWordsBE chunk))
  let (h0, h1, h2, h3, h4) := h
  let (a, b, c, d, e) := sha1Loop 0 w.toList h0 h1 h2 h3 h4
  ((h0 + a) % pow32, (h1 + b) % pow32, (h2 + c) % pow32, (h3 + d) % pow32,
    (h4 + e) % pow32)

/-- Split a padded message into 64-byte chunks; the fuel (one unit per byte)
dominates the number of chunks, keeping the recursion structural. -/
def splitChunksFuel : Nat → List Nat → List (List Nat)
  | 0, _ => []
  | _, [] => []
  | fuel + 1, x :: xs => (x :: xs).take 64 :: splitChunksFuel fuel ((x :: xs).drop 64)

/-- Split a padded message into 64-byte chunks. -/
def splitChunks (l : List Nat) : List (List Nat) := splitChunksFuel l.length l

/-- SHA-1 of a byte list, as a 20-byte digest. -/
def sha1 (msg : List Nat) : List Nat :=
  let init : Nat × Nat × Nat × Nat × Nat :=
    (0x67452301, 0xEFCDAB89, 0x98BADCFE, 0x10325476, 0xC3D2E1F0)
  let (a, b, c, d, e) := (splitChunks (sha1Pad msg)).foldl sha1ProcessChunk init
  toBytesBE 4 a ++ toBytesBE 4 b ++ toBytesBE 4 c ++ toBytesBE 4 d ++ toBytesBE 4 e

/-- HMAC-SHA1 (`hmac.new(key, data, hashlib.sha1).digest()`). -/
def hmacSha1 (key msg : List Nat) : List Nat :=
  let k := if key.length > 64 then sha1 key else key
  let kpad := k ++ List.replicate (64 - k.length) 0
  let ipad := kpad.map (Nat.xor 0x36)
  let opad := kpad.map (Nat.xor 0x5C)
  sha1 (opad ++ sha1 (ipad ++ msg))

def base64Chars : List Char :=
  "ABCDEFGHIJKLMNOPQRSTUVWXYZabcdefghijklmnopqrstuvwxyz0123456789+/".data

def b64Char (n : Nat) : Char := base64Chars.getD n 'A'

/-- Standard base64 with padding (`base64.b64encode`). -/
def base64Encode : List Nat → List Char
  | a :: b :: c :: rest =>
    let v := (a * 256 + b) * 256 + c
    b64Char (v >>> 18) :: b64Char ((v >>> 12) % 64) :: b64Char ((v >>> 6) % 64) ::
      b64Char (v % 64) :: base64Encode rest
  | [a, b] =>
    let v := (a * 256 + b) * 4
    [b64Char (v >>> 12), b64Char ((v >>> 6) % 64), b64Char (v % 64), '=']
  | [a] =>
    let v := a * 16
    [b64Char (v >>> 6), b64Char (v % 64), '=', '=']
  | [] => []

/-- UTF-8 encoding of one character (`str.encode('utf-8')`). -/
def utf8EncodeChar (c : Char) : List Nat :=
  let n := c.toNat
  if n < 0x80 then [n]
  else if n < 0x800 then
    [0xC0 + (n >>> 6), 0x80 + (n % 64)]
  else if n < 0x10000 then
    [0xE0 + (n >>> 12), 0x80 + ((n >>> 6) % 64), 0x80 + (n % 64)]
  else
    [0xF0 + (n >>> 18), 0x80 + ((n >>> 12) % 64), 0x80 + ((n >>> 6) % 64),
      0x80 + (n % 64)]

def utf8Encode (s : String) : List Nat := s.data.flatMap utf8EncodeChar

/-! ## Signature verifier (`src/utils.py` lines 37-69) -/

/-- Python's `<` on strings: lexicographic comparison of code points. -/
def charListLt : List Char → List Char → Bool
  | [], [] => false
  | [], _ :: _ => true
  | _ :: _, [] => false
  | a :: as, b :: bs =>
    if a.toNat < b.toNat then true
    else if b.toNat < a.toNat then false
    else charListLt as bs

def strLtB (a b : String) : Bool := charListLt a.data b.data

/-- Lexicographic order on key/value pairs, Python's `sorted` on 2-tuples of
strings. -/
def paramLe (a b : String × String) : Bool :=
  if a.1 = b.1 then !(strLtB b.2 a.2) else strLtB a.1 b.1

def insertSorted (x : String × String) :
    List (String × String) → List (String × String)
  | [] => [x]
  | y :: ys => if paramLe x y then x :: y :: ys else y :: insertSorted x ys

/-- Python's `sorted` over key/value pairs. -/
def sortParams (l : List (String × String)) : List (String × String) :=
  l.foldr insertSorted []

/-- Whether a string only holds ASCII characters, the domain on which
CPython's `hmac.compare_digest` accepts `str` arguments. -/
def isAsciiStr (s : String) : Bool := s.data.all (fun c => c.toNat < 128)

/-- Model of `hmac.compare_digest` on two `str` arguments: equality on
ASCII-only strings (its constant-time nature has no observable counterpart
here); when either argument contains a non-ASCII character CPython raises
`TypeError` ("comparing strings with non-ASCII characters is not
supported"), modelled as `none`. -/
def compare_digest (a b : String) : Option Bool :=
  if isAsciiStr a && isAsciiStr b then some (a == b) else none

/-- Embedding of `verify_twilio_signature`, the manual-computation branch
taken when the twilio `RequestValidator` library is unavailable (the branch
the spec's §4.1 algorithm describes): concatenate the URL with the sorted
key/value pairs (multi-valued parameters collapsed to their first value),
HMAC-SHA1 under the auth token, base64, and compare with the header value.
This Bool-valued version collapses `hmac.compare_digest` to equality, which
is exact on ASCII signatures (the recomputed value is base64, hence always
ASCII); `verify_twilio_signature_checked` below keeps the `TypeError` that
`compare_digest` raises on a non-ASCII signature. -/
def verify_twilio_signature (signature url : String)
    (params : List (String × List String)) (auth_token : String) : Bool :=
  let sorted_params := sortParams (params.map (fun kv => (kv.1, kv.2.headD "")))
  let data := url ++ String.join (sorted_params.map (fun kv => kv.1 ++ kv.2))
  let digest := hmacSha1 (utf8Encode auth_token) (utf8Encode data)
  let computed_signature := String.mk (base64Encode digest)
  computed_signature == signature

/-- The signature the verifier recomputes for given url/params/token (the
`computed_signature` local of the source, lines 63-67): URL concatenated
with the sorted flattened key/value pairs, HMAC-SHA1 under the token,
base64. -/
def computedSignature (url : String) (params : List (String × List String))
    (auth_token : String) : String :=
  let sorted_params := sortParams (params.map (fun kv => (kv.1, kv.2.headD "")))
  let data := url ++ String.join (sorted_params.map (fun kv => kv.1 ++ kv.2))
  String.mk (base64Encode (hmacSha1 (utf8Encode auth_token) (utf8Encode data)))

/-- Embedding of `verify_twilio_signature` with the fallible comparison kept:
the same recomputation as above, but the final `hmac.compare_digest` call is
modelled with its error path, so the result is `none` exactly where the
Python function raises `TypeError` (a non-ASCII header signature) and
`some b` where it returns `b`. -/
def verify_twilio_signature_checked (signature url : String)
    (params : List (String × List String)) (auth_token : String) :
    Option Bool :=
  compare_digest (computedSignature url params auth_token) signature

/-! ## Classifier (`src/utils.py` lines 153-245) -/

/-- Result of the OpenAI ChatCompletion call, an external collaborator:
`failure` models the call raising, `unparseable` a reply that `json.loads`
rejects, `parsed d` a reply parsed into the dict `d`. -/
inductive LLMOutcome where
  | failure : LLMOutcome
  | unparseable : LLMOutcome
  | parsed : TriageDict → LLMOutcome
deriving DecidableEq, Repr

/-- The process environment and OpenAI client state `classify_message` reads:
whether `import openai` succeeded, `os.getenv('LLM_PROVIDER')`,
`os.getenv('OPENAI_API_KEY')`, and the outcome of the ChatCompletion call. -/
structure LLMEnv where
  openaiAvailable : Bool
  envProvider : Option String
  envApiKey : Option String
  outcome : LLMOutcome
deriving DecidableEq, Repr

/-- `provider or os.getenv('LLM_PROVIDER', 'openai')`: the empty (falsy)
provider string resolves from the environment. -/
def resolveProvider (provider : String) (env : LLMEnv) : String :=
  if provider = "" then env.envProvider.getD "openai" else provider

/-- `openai_api_key or os.getenv('OPENAI_API_KEY')`, empty strings falsy. -/
def resolveApiKey (openai_api_key : Option String) (env : LLMEnv) :
    Option String :=
  match openai_api_key with
  | some k => if k = "" then env.envApiKey else some k
  | none => env.envApiKey

/-- `if not api_key`: missing or empty credential. -/
def keyMissing : Option String → Bool
  | none => true
  | some k => k == ""

/-- Embedding of `classify_message`. On the successful LLM path the parsed
dict is returned with `urgency` defaulted to `"LOW"` only when that key is
absent; every failure (unrecognized provider, unavailable client, missing
credential, call failure, unparseable reply) returns the fallback
classification, so the function is total — the Python `try`/`except` never
lets an exception escape. -/
def classify_message (message : String) (history : List HistEntry)
    (provider : String) (openai_api_key : Option String) (env : LLMEnv) :
    TriageDict :=
  let providerR := resolveProvider provider env
  if providerR = "openai" ∧ env.openaiAvailable = true then
    let api_key := resolveApiKey openai_api_key env
    if keyMissing api_key then fallback_classifier message
    else
      match env.outcome with
      | .failure => fallback_classifier message
      | .unparseable => fallback_classifier message
      | .parsed d =>
        { d with urgency := match d.urgency with
                            | none => some "LOW"
                            | some u => some u }
  else fallback_classifier message

/-! ## Triage decision engine (`src/utils.py` lines 248-301) -/

/-- Models `json.dumps(triage_result, indent=2)`: a textual rendering of the
keys present in the dict, in the schema order of the docstring. -/
def jsonList (l : List String) : String :=
  "[" ++ String.intercalate ", " (l.map (fun s => "\"" ++ s ++ "\"")) ++ "]"

def dumpsTriage (t : TriageDict) : String :=
  let fields : List String :=
    (match t.symptoms with
     | some l => ["\"symptoms\": " ++ jsonList l]
     | none => []) ++
    (match t.duration with
     | some s => ["\"duration\": \"" ++ s ++ "\""]
     | none => []) ++
    (match t.age with
     | some s => ["\"age\": \"" ++ s ++ "\""]
     | none => []) ++
    (match t.red_flags with
     | some l => ["\"red_flags\": " ++ jsonList l]
     | none => []) ++
    (match t.urgency with
     | some s => ["\"urgency\": \"" ++ s ++ "\""]
     | none => [])
  "\x7b\n  " ++ String.intercalate ",\n  " fields ++ "\n\x7d"

/-- `send_alert` (`src/utils.py` lines 128-137): `sns_client.publish`,
modelled as appending the publication to the channel. -/
def send_alert (sns : List SnsMsg) (topic_arn subject message : String) :
    List SnsMsg :=
  sns ++ [⟨topic_arn, subject, message⟩]

def high_reply : String :=
  "Based on the symptoms you described, it may be an emergency. Please call your local emergency number or visit the nearest emergency room immediately."

def medium_reply : String :=
  "Thanks for providing more details. It sounds like your situation is not urgent, but we would like to schedule an appointment. Please reply with your name and a preferred day/time for a call or visit."

def low_reply : String :=
  "It appears your symptoms are mild. Here are some general self‑care tips: rest, stay hydrated and monitor your symptoms. If they worsen or new symptoms appear, please contact a healthcare professional."

def alert_subject_for (user_id : String) : String :=
  "High urgency triage alert for user " ++ user_id

def alert_body_for (user_id : String) (triage_result : TriageDict) : String :=
  "User " ++ user_id ++ " has reported symptoms requiring immediate attention.\nExtracted fields: " ++ dumpsTriage triage_result ++ "\n\nPlease contact the patient as soon as possible."

/-- Embedding of `build_response_and_state`. The in-place dict mutation and
the SNS side effect become explicit: the result carries the reply string, the
updated conversation, and the notification channel after any publish. `now`
is `int(time.time())`. -/
def build_response_and_state (triage_result : TriageDict)
    (conversation : Conversation) (message : String) (sns : List SnsMsg)
    (topic_arn user_id : String) (now : Nat) :
    String × Conversation × List SnsMsg :=
  let urgency := strUpper (triage_result.urgency.getD "LOW")
  let history := conversation.history ++ [⟨now, message⟩]
  let conversation := { conversation with
    history := history, triage_level := some urgency,
    last_intent := some "triage" }
  if urgency = "HIGH" then
    let sns := send_alert sns topic_arn (alert_subject_for user_id)
      (alert_body_for user_id triage_result)
    (high_reply, conversation, sns)
  else if urgency = "MEDIUM" then
    (medium_reply, conversation, sns)
  else
    (low_reply, conversation, sns)

/-! ## Response renderer (`src/utils.py` lines 140-150) -/

def xmlHead : String :=
  "<?xml version=\"1.0\" encoding=\"UTF-8\"?>\n<Response>\n    <Message>"

def xmlTail : String := "</Message>\n</Response>"

/-- Embedding of `generate_twiml_response`: the f-string interpolation of the
reply into the fixed TwiML skeleton. -/
def generate_twiml_response (message : String) : String :=
  xmlHead ++ message ++ xmlTail

/-! ## Store adapters (`src/utils.py` lines 72-125) -/

/-- `load_conversation`: `get_item` by user id, with the default structure
when no item exists (lookup failures are handled the same way). `nowIso` is
`datetime.now(timezone.utc).isoformat()`. -/
def load_conversation (table : List (String × Conversation)) (user_id : String)
    (nowIso : String) : Conversation :=
  match table.lookup user_id with
  | some item => item
  | none =>
    { user_id := user_id, history := [], last_intent := none,
      triage_level := none, created_at := nowIso, updated_at := nowIso }

/-- DynamoDB `put_item`: upsert keyed by `user_id`, overwriting the prior
record entirely. -/
def putItem (table : List (String × Conversation)) (key : String)
    (c : Conversation) : List (String × Conversation) :=
  if table.any (fun kv => kv.1 == key) then
    table.map (fun kv => if kv.1 == key then (key, c) else kv)
  else table ++ [(key, c)]

/-- `store_conversation`: stamp `updated_at`, then `put_item`. -/
def store_conversation (table : List (String × Conversation))
    (conversation : Conversation) (nowIso : String) :
    List (String × Conversation) :=
  let conversation := { conversation with updated_at := nowIso }
  putItem table conversation.user_id conversation

/-- One S3 object written by `upload_transcript`. -/
structure S3Obj where
  bucket : String
  key : String
  body : String
deriving DecidableEq, Repr

/-- `upload_transcript`: `put_object` under a per-user, timestamped key; `ts`
is `datetime.now(timezone.utc).strftime('%Y%m%dT%H%M%SZ')`. -/
def upload_transcript (s3 : List S3Obj) (bucket user_id transcript ts : String) :
    List S3Obj :=
  s3 ++ [⟨bucket, user_id ++ "/transcript_" ++ ts ++ ".txt", transcript⟩]

/-! ## Request orchestrator (`src/lambda_function.py`) -/

/-- The external AWS state the handler reads and writes: the DynamoDB table,
the S3 bucket contents and the SNS channel. -/
structure AwsState where
  table : List (String × Conversation)
  s3 : List S3Obj
  sns : List SnsMsg
deriving DecidableEq, Repr

/-- The handler's HTTP result: `statusCode`, the optional `Content-Type`
header, and `body`. -/
structure Resp where
  statusCode : Nat
  contentType : Option String
  body : String
deriving DecidableEq, Repr

/-- The inbound API Gateway event. `params` is `parse_qs(body)` — the
form-decoded POST body, decoded by the external `urllib` collaborator. -/
structure Event where
  headers : List (String × String)
  domainName : String
  path : String
  params : List (String × List String)
deriving DecidableEq, Repr

/-- The module-level configuration read from the environment at import time:
`DYNAMODB_TABLE` (presence only — the table contents live in `AwsState`),
`S3_BUCKET`, `SNS_TOPIC_ARN`, `TWILIO_AUTH_TOKEN`, `LLM_PROVIDER`. -/
structure Config where
  tableConfigured : Bool
  bucketName : Option String
  topicArn : Option String
  authToken : Option String
  provider : String
deriving DecidableEq, Repr

/-- The header lookup `{k.lower(): v for k, v in headers.items()}[key]`:
keys lower-cased, later duplicates winning as in a dict comprehension. -/
def headerLookup (headers : List (String × String)) (key : String) :
    Option String :=
  (((headers.map (fun kv => (strLower kv.1, kv.2))).filter
    (fun kv => kv.1 == key)).getLast?).map (fun kv => kv.2)

/-- The `{}` bound to `conversation` when no table is configured: a dict with
no keys, i.e. every field at its absent default. -/
def emptyConversation : Conversation :=
  { user_id := "", history := [], last_intent := none, triage_level := none,
    created_at := "", updated_at := "" }

/-- `"\n".join(f"{m['timestamp']}: {m['message']}" for m in history)`. -/
def transcriptOf (history : List HistEntry) : String :=
  String.intercalate "\n"
    (history.map (fun m => toString m.timestamp ++ ": " ++ m.message))

/-- Embedding of `lambda_handler`: signature check, field extraction and
validation, load → classify → decide, then conditional persistence, the
transcript upload and the TwiML response. `now`/`nowIso`/`ts` are the clock
readings, `env` the LLM collaborator. -/
def lambda_handler (cfg : Config) (env : LLMEnv) (now : Nat) (nowIso ts : String)
    (st : AwsState) (ev : Event) : Resp × AwsState :=
  let signature := (headerLookup ev.headers "x-twilio-signature").getD ""
  let full_url := "https://" ++ ev.domainName ++ ev.path
  let params := ev.params
  if verify_twilio_signature signature full_url params (cfg.authToken.getD "") = false then
    ({ statusCode := 403, contentType := none, body := "Invalid signature" }, st)
  else
    let user_id := ((params.lookup "From").getD [""]).headD ""
    let message := strTrim (((params.lookup "Body").getD [""]).headD "")
    if user_id = "" ∨ message = "" then
      ({ statusCode := 400, contentType := none,
         body := "Missing From or Body parameter" }, st)
    else
      let conversation :=
        if cfg.tableConfigured then load_conversation st.table user_id nowIso
        else emptyConversation
      let triage_result :=
        classify_message message conversation.history cfg.provider none env
      let (reply_message, conversation, sns) :=
        build_response_and_state triage_result conversation message st.sns
          (cfg.topicArn.getD "") user_id now
      let table :=
        if cfg.tableConfigured then store_conversation st.table conversation nowIso
        else st.table
      let s3 :=
        match cfg.bucketName with
        | some b => upload_transcript st.s3 b user_id
            (transcriptOf conversation.history) ts
        | none => st.s3
      ({ statusCode := 200, contentType := some "application/xml",
         body := generate_twiml_response reply_message },
       { table := table, s3 := s3, sns := sns })

/-! ## Claim theorems -/

theorem find?_containsSub_iff (kws : List String) (text : String) :
    (kws.find? (fun kw => containsSub text kw)).isSome = true ↔
      ∃ kw ∈ kws, ∃ p t, p ++ kw.data ++ t = text.data := by
  rw [List.find?_isSome]
  constructor
  · rintro ⟨kw, hmem, hc⟩
    exact ⟨kw, hmem, (containsSub_eq_true_iff text kw).mp hc⟩
  · rintro ⟨kw, hmem, hocc⟩
    exact ⟨kw, hmem, (containsSub_eq_true_iff text kw).mpr hocc⟩

theorem fallback_urgency_eq (msg : String) :
    (fallback_classifier msg).urgency = some
      (if (high_keywords.find? (fun kw => containsSub (strLower msg) kw)).isSome = true
       then "HIGH"
       else if (medium_keywords.find? (fun kw => containsSub (strLower msg) kw)).isSome = true
       then "MEDIUM"
       else "LOW") := by
  unfold fallback_classifier
  cases hH : high_keywords.find? (fun kw => containsSub (strLower msg) kw) with
  | some kw => simp [hH]
  | none =>
    cases hM : medium_keywords.find? (fun kw => containsSub (strLower msg) kw) with
    | some kw => simp [hH, hM]
    | none => simp [hH, hM]

open Classical in
/-- C1: the fallback classifier lower-cases the message and returns urgency
HIGH exactly when one of the four HIGH keywords occurs as a substring (the
MEDIUM scan is then skipped), else MEDIUM exactly when one of the four MEDIUM
keywords occurs, else LOW; and it always returns `symptoms = [message]`
verbatim, `duration = ""`, `age = ""`, `red_flags = []`. As a Lean function
of the message alone it is pure and deterministic. -/
theorem C1_fallback_classifier_keyword_rules (msg : String) :
    (fallback_classifier msg).symptoms = some [msg] ∧
    (fallback_classifier msg).duration = some "" ∧
    (fallback_classifier msg).age = some "" ∧
    (fallback_classifier msg).red_flags = some [] ∧
    (fallback_classifier msg).urgency = some
      (if ∃ kw ∈ high_keywords, ∃ p t, p ++ kw.data ++ t = (strLower msg).data
       then "HIGH"
       else if ∃ kw ∈ medium_keywords, ∃ p t, p ++ kw.data ++ t = (strLower msg).data
       then "MEDIUM"
       else "LOW") := by
  refine ⟨rfl, rfl, rfl, rfl, ?_⟩
  rw [fallback_urgency_eq]
  congr 1
  by_cases hH : ∃ kw ∈ high_keywords, ∃ p t, p ++ kw.data ++ t = (strLower msg).data
  · rw [if_pos hH, if_pos ((find?_containsSub_iff high_keywords (strLower msg)).mpr hH)]
  · rw [if_neg hH, if_neg (fun hc => hH ((find?_containsSub_iff high_keywords (strLower msg)).mp hc))]
    by_cases hM : ∃ kw ∈ medium_keywords, ∃ p t, p ++ kw.data ++ t = (strLower msg).data
    · rw [if_pos hM, if_pos ((find?_containsSub_iff medium_keywords (strLower msg)).mpr hM)]
    · rw [if_neg hM, if_neg (fun hc => hM ((find?_containsSub_iff medium_keywords (strLower msg)).mp hc))]

/-- C2: the decision engine branches on the urgency normalized to uppercase
(defaulting to LOW when the key is absent): on HIGH it publishes exactly one
notification, whose subject names the user id and whose body embeds the
serialized triage result, and replies with the emergency-care instruction; on
MEDIUM it publishes nothing and asks for a preferred day/time; on anything
else it publishes nothing and gives the self-care guidance. -/
theorem C2_decision_engine_branches (t : TriageDict) (conversation : Conversation)
    (message : String) (sns : List SnsMsg) (topic_arn user_id : String) (now : Nat) :
    (strUpper (t.urgency.getD "LOW") = "HIGH" →
      (build_response_and_state t conversation message sns topic_arn user_id now).2.2 =
        sns ++ [⟨topic_arn, alert_subject_for user_id, alert_body_for user_id t⟩] ∧
      (build_response_and_state t conversation message sns topic_arn user_id now).2.2.length =
        sns.length + 1 ∧
      (build_response_and_state t conversation message sns topic_arn user_id now).1 = high_reply) ∧
    (strUpper (t.urgency.getD "LOW") = "MEDIUM" →
      (build_response_and_state t conversation message sns topic_arn user_id now).2.2 = sns ∧
      (build_response_and_state t conversation message sns topic_arn user_id now).1 = medium_reply) ∧
    (strUpper (t.urgency.getD "LOW") ≠ "HIGH" →
     strUpper (t.urgency.getD "LOW") ≠ "MEDIUM" →
      (build_response_and_state t conversation message sns topic_arn user_id now).2.2 = sns ∧
      (build_response_and_state t conversation message sns topic_arn user_id now).1 = low_reply) := by
  unfold build_response_and_state send_alert
  by_cases hH : strUpper (t.urgency.getD "LOW") = "HIGH" <;>
    by_cases hM : strUpper (t.urgency.getD "LOW") = "MEDIUM" <;>
    simp [hH, hM]

/-- Witness for C2 at a concrete HIGH-urgency input; the lowercase `"high"`
in the triage result also exercises the uppercase normalization. -/
theorem C2_witness :
    (build_response_and_state ⟨none, none, none, none, some "high"⟩
      emptyConversation "m" [] "arn" "+1" 5).2.2.length = 0 + 1 ∧
    (build_response_and_state ⟨none, none, none, none, some "high"⟩
      emptyConversation "m" [] "arn" "+1" 5).1 = high_reply := by
  have h := C2_decision_engine_branches ⟨none, none, none, none, some "high"⟩
    emptyConversation "m" [] "arn" "+1" 5
  have h1 := h.1 (by decide)
  exact ⟨by rw [h1.2.1]; rfl, h1.2.2⟩

/-- C3: every processed message appends exactly one entry to the history, and
afterwards `triage_level` equals the uppercased urgency of the message just
processed, independent of the prior conversation state. -/
theorem C3_history_append_and_triage_level (t : TriageDict)
    (conversation : Conversation) (message : String) (sns : List SnsMsg)
    (topic_arn user_id : String) (now : Nat) :
    (build_response_and_state t conversation message sns topic_arn user_id now).2.1.history.length =
      conversation.history.length + 1 ∧
    (build_response_and_state t conversation message sns topic_arn user_id now).2.1.triage_level =
      some (strUpper (t.urgency.getD "LOW")) := by
  unfold build_response_and_state
  by_cases hH : strUpper (t.urgency.getD "LOW") = "HIGH" <;>
    by_cases hM : strUpper (t.urgency.getD "LOW") = "MEDIUM" <;>
    simp [hH, hM]

/-- C9: the decision engine only touches `history`, `triage_level` and
`last_intent`: `user_id`, `created_at` and `updated_at` pass through
unchanged, and the new history is the old one with a single entry appended,
so no existing entry is removed or modified. -/
theorem C9_decision_engine_frame (t : TriageDict) (conversation : Conversation)
    (message : String) (sns : List SnsMsg) (topic_arn user_id : String) (now : Nat) :
    (build_response_and_state t conversation message sns topic_arn user_id now).2.1.user_id =
      conversation.user_id ∧
    (build_response_and_state t conversation message sns topic_arn user_id now).2.1.created_at =
      conversation.created_at ∧
    (build_response_and_state t conversation message sns topic_arn user_id now).2.1.updated_at =
      conversation.updated_at ∧
    (build_response_and_state t conversation message sns topic_arn user_id now).2.1.history =
      conversation.history ++ [⟨now, message⟩] ∧
    (build_response_and_state t conversation message sns topic_arn user_id now).2.1.last_intent =
      some "triage" := by
  unfold build_response_and_state
  by_cases hH : strUpper (t.urgency.getD "LOW") = "HIGH" <;>
    by_cases hM : strUpper (t.urgency.getD "LOW") = "MEDIUM" <;>
    simp [hH, hM]

/-- C8: the renderer emits the UTF-8 XML declaration, a single `Response`
root with one `Message` child, and splices the reply text in literally; the
second conjunct exhibits a reply whose `<`, `&`, `>` appear verbatim
(unescaped) in the output. -/
theorem C8_twiml_literal_embedding :
    (∀ message : String,
      generate_twiml_response message = xmlHead ++ message ++ xmlTail) ∧
    containsSub (generate_twiml_response "a < b & c > d") "a < b & c > d" = true := by
  exact ⟨fun _ => rfl, by decide⟩

/-- C4: `classify_message` is total (the embedding is a function, never an
exception), returns the deterministic fallback result whenever the resolved
provider is not `openai`, the OpenAI client is unavailable, the credential is
missing or empty, the LLM call fails, or its reply fails to parse; and when
the LLM path is live and the reply parses without an `urgency` key, the
result's urgency is defaulted to `"LOW"`. -/
theorem C4_classify_message_fallback_paths (message : String)
    (history : List HistEntry) (provider : String)
    (openai_api_key : Option String) (env : LLMEnv) :
    (resolveProvider provider env ≠ "openai" →
      classify_message message history provider openai_api_key env =
        fallback_classifier message) ∧
    (env.openaiAvailable = false →
      classify_message message history provider openai_api_key env =
        fallback_classifier message) ∧
    (keyMissing (resolveApiKey openai_api_key env) = true →
      classify_message message history provider openai_api_key env =
        fallback_classifier message) ∧
    (env.outcome = .failure →
      classify_message message history provider openai_api_key env =
        fallback_classifier message) ∧
    (env.outcome = .unparseable →
      classify_message message history provider openai_api_key env =
        fallback_classifier message) ∧
    (∀ d, resolveProvider provider env = "openai" →
      env.openaiAvailable = true →
      keyMissing (resolveApiKey openai_api_key env) = false →
      env.outcome = .parsed d → d.urgency = none →
      (classify_message message history provider openai_api_key env).urgency =
        some "LOW") := by
  unfold classify_message
  by_cases hp : resolveProvider provider env = "openai" <;>
    cases ha : env.openaiAvailable <;>
    cases hk : keyMissing (resolveApiKey openai_api_key env) <;>
    cases ho : env.outcome <;>
    simp_all

/-- Witness for C4: an unrecognized provider yields the fallback result. -/
theorem C4_witness :
    classify_message "I have a mild headache." [] "unknown" none
      ⟨true, none, none, .failure⟩ =
      fallback_classifier "I have a mild headache." := by
  have h := C4_classify_message_fallback_paths "I have a mild headache." []
    "unknown" none ⟨true, none, none, .failure⟩
  exact h.1 (by decide)

/-- C10: on the successful LLM path the parsed dict is passed through with
only `urgency` defaulted when absent — `symptoms`, `duration`, `age` and
`red_flags` stay exactly as parsed, so a parseable reply missing them yields
a triage result missing part of the documented schema. -/
theorem C10_llm_parsed_fields_passthrough (message : String)
    (history : List HistEntry) (provider : String)
    (openai_api_key : Option String) (env : LLMEnv) (d : TriageDict)
    (hp : resolveProvider provider env = "openai")
    (ha : env.openaiAvailable = true)
    (hk : keyMissing (resolveApiKey openai_api_key env) = false)
    (ho : env.outcome = .parsed d) :
    (classify_message message history provider openai_api_key env).symptoms =
      d.symptoms ∧
    (classify_message message history provider openai_api_key env).duration =
      d.duration ∧
    (classify_message message history provider openai_api_key env).age =
      d.age ∧
    (classify_message message history provider openai_api_key env).red_flags =
      d.red_flags ∧
    (classify_message message history provider openai_api_key env).urgency =
      some (d.urgency.getD "LOW") := by
  unfold classify_message
  rw [ho]
  cases hu : d.urgency <;> simp_all

/-- Witness for C10: a parsed reply carrying only an urgency-free empty dict
comes back with every schema field still absent and urgency defaulted. -/
theorem C10_witness :
    (classify_message "m" [] "openai" (some "sk-1")
      ⟨true, none, none, .parsed ⟨none, none, none, none, none⟩⟩).symptoms =
      none ∧
    (classify_message "m" [] "openai" (some "sk-1")
      ⟨true, none, none, .parsed ⟨none, none, none, none, none⟩⟩).urgency =
      some "LOW" := by
  have h := C10_llm_parsed_fields_passthrough "m" [] "openai" (some "sk-1")
    ⟨true, none, none, .parsed ⟨none, none, none, none, none⟩⟩
    ⟨none, none, none, none, none⟩ (by decide) (by decide) (by decide) rfl
  exact ⟨h.1, h.2.2.2.2⟩

/-- C5: when the signature check fails, the handler answers 403 "Invalid
signature" and leaves the conversation store, transcript store and
notification channel untouched; since the right-hand side does not mention
`env`, no classification (LLM interaction) takes place either. -/
theorem C5_invalid_signature_no_side_effects (cfg : Config) (env : LLMEnv)
    (now : Nat) (nowIso ts : String) (st : AwsState) (ev : Event)
    (h : verify_twilio_signature
      ((headerLookup ev.headers "x-twilio-signature").getD "")
      ("https://" ++ ev.domainName ++ ev.path) ev.params
      (cfg.authToken.getD "") = false) :
    lambda_handler cfg env now nowIso ts st ev =
      ({ statusCode := 403, contentType := none, body := "Invalid signature" },
       st) := by
  unfold lambda_handler
  simp [h]

/-- Witness for C5 at a concrete request with a wrong signature. -/
theorem C5_witness :
    lambda_handler ⟨true, some "b", some "arn", some "t0ken", "unknown"⟩
      ⟨true, none, none, .failure⟩ 99 "2026-01-01T00:00:00" "20260101T000000Z"
      ⟨[], [], []⟩
      ⟨[("X-Twilio-Signature", "x")], "example.com", "/webhook",
        [("From", ["+1"]), ("Body", ["hi"])]⟩ =
      ({ statusCode := 403, contentType := none, body := "Invalid signature" },
       ⟨[], [], []⟩) :=
  C5_invalid_signature_no_side_effects _ _ _ _ _ _ _ (by decide)

theorem b64Char_ascii (n : Nat) : (b64Char n).toNat < 128 := by
  have hall : ∀ x ∈ base64Chars, x.toNat < 128 := by decide
  unfold b64Char
  rw [List.getD_eq_getElem?_getD]
  rcases h : base64Chars[n]? with _ | c
  · simp
  · have hc : c ∈ base64Chars := List.getElem?_mem h
    simpa using hall c hc

theorem base64Encode_ascii : ∀ (bytes : List Nat),
    ∀ c ∈ base64Encode bytes, c.toNat < 128
  | [] => by simp [base64Encode]
  | [a] => by
    intro ch hch
    simp only [base64Encode, List.mem_cons, List.not_mem_nil, or_false] at hch
    rcases hch with rfl | rfl | rfl | rfl
    · exact b64Char_ascii _
    · exact b64Char_ascii _
    · decide
    · decide
  | [a, b] => by
    intro ch hch
    simp only [base64Encode, List.mem_cons, List.not_mem_nil, or_false] at hch
    rcases hch with rfl | rfl | rfl | rfl
    · exact b64Char_ascii _
    · exact b64Char_ascii _
    · exact b64Char_ascii _
    · decide
  | a :: b :: c :: rest => by
    intro ch hch
    simp only [base64Encode, List.mem_cons] at hch
    rcases hch with rfl | rfl | rfl | rfl | hmem
    · exact b64Char_ascii _
    · exact b64Char_ascii _
    · exact b64Char_ascii _
    · exact b64Char_ascii _
    · exact base64Encode_ascii rest ch hmem

/-- The recomputed signature is base64 output, hence always ASCII — so
`hmac.compare_digest` can only raise because of the header signature. -/
theorem computedSignature_ascii (url : String)
    (params : List (String × List String)) (auth_token : String) :
    isAsciiStr (computedSignature url params auth_token) = true := by
  unfold computedSignature isAsciiStr
  rw [List.all_eq_true]
  intro c hc
  simpa using base64Encode_ascii _ c (by simpa using hc)

/-- C6 counterexample: two concrete inputs refute the claim. With an EMPTY
auth token the verifier still accepts the signature equal to the base64
HMAC-SHA1 computed under the empty key (the code has no empty-token
rejection); and on a malformed NON-ASCII signature it does not return false:
`hmac.compare_digest` raises `TypeError`, `none` in the checked model. -/
theorem C6_counterexample_empty_token_and_nonascii :
    verify_twilio_signature_checked "sYzUys9OUSoqxRrVgoM+2phZDM4="
      "https://example.com/webhook" [("Body", ["hi"])] "" = some true ∧
    verify_twilio_signature_checked "café" "https://example.com/webhook"
      [("Body", ["hi"])] "t0ken" = none :=
  ⟨by decide, by decide⟩

/-- C6 (amended): on ASCII signatures the manual branch compares the header
value with the recomputed base64 HMAC-SHA1, so any mismatching ASCII
signature — malformed or not — yields `false`; but the function is not
total: a non-ASCII signature makes `hmac.compare_digest` raise `TypeError`
(`none`), and an empty auth token is not rejected — it is simply used as the
(empty) HMAC key. -/
theorem C6_amended_mismatch_returns_false (signature url : String)
    (params : List (String × List String)) (auth_token : String) :
    (isAsciiStr signature = true →
      signature ≠ computedSignature url params auth_token →
      verify_twilio_signature_checked signature url params auth_token =
        some false) ∧
    (isAsciiStr signature = false →
      verify_twilio_signature_checked signature url params auth_token =
        none) := by
  unfold verify_twilio_signature_checked compare_digest
  rw [computedSignature_ascii url params auth_token]
  constructor
  · intro ha hne
    rw [ha]
    simp only [Bool.and_self, if_true, Option.some.injEq, beq_eq_false_iff_ne, ne_eq]
    exact fun e => hne e.symm
  · intro ha
    rw [ha]
    simp

/-- Witness for C6 (amended): a concrete mismatching ASCII signature is
rejected with `false`. -/
theorem C6_witness :
    verify_twilio_signature_checked "x" "https://example.com/webhook"
      [("Body", ["hi"])] "t0ken" = some false :=
  (C6_amended_mismatch_returns_false "x" "https://example.com/webhook"
    [("Body", ["hi"])] "t0ken").1 (by decide) (by decide)

/-- C7 counterexample: an authenticated request (the signature is the valid
one for these parameters) whose `From` is whitespace-only — hence empty after
trimming — is NOT rejected: the handler answers 200 and writes the
conversation store, because the code trims only `Body`, never `From`. -/
theorem C7_counterexample_untrimmed_from :
    verify_twilio_signature "8pN3uQW8zqksWo7Vm922TFr5VBk="
      "https://example.com/webhook" [("From", ["   "]), ("Body", ["hi"])]
      "t0ken" = true ∧
    strTrim "   " = "" ∧
    ((lambda_handler ⟨true, some "b", some "arn", some "t0ken", "unknown"⟩
      ⟨true, none, none, .failure⟩ 99 "2026-01-01T00:00:00" "20260101T000000Z"
      ⟨[], [], []⟩
      ⟨[("X-Twilio-Signature", "8pN3uQW8zqksWo7Vm922TFr5VBk=")], "example.com",
        "/webhook", [("From", ["   "]), ("Body", ["hi"])]⟩).1.statusCode = 200 ∧
     (lambda_handler ⟨true, some "b", some "arn", some "t0ken", "unknown"⟩
      ⟨true, none, none, .failure⟩ 99 "2026-01-01T00:00:00" "20260101T000000Z"
      ⟨[], [], []⟩
      ⟨[("X-Twilio-Signature", "8pN3uQW8zqksWo7Vm922TFr5VBk=")], "example.com",
        "/webhook", [("From", ["   "]), ("Body", ["hi"])]⟩).2.table.length = 1) :=
  ⟨by decide, by decide, by decide⟩

/-- C7 (amended): for every authenticated request in which the `From` field
is empty AS GIVEN (the code does not trim it) or the `Body` field is empty
after trimming, the handler returns the 400 validation response with no
store write and no notification. -/
theorem C7_amended_validation_failure (cfg : Config) (env : LLMEnv) (now : Nat)
    (nowIso ts : String) (st : AwsState) (ev : Event)
    (hsig : verify_twilio_signature
      ((headerLookup ev.headers "x-twilio-signature").getD "")
      ("https://" ++ ev.domainName ++ ev.path) ev.params
      (cfg.authToken.getD "") = true)
    (hempty : ((ev.params.lookup "From").getD [""]).headD "" = "" ∨
      strTrim (((ev.params.lookup "Body").getD [""]).headD "") = "") :
    lambda_handler cfg env now nowIso ts st ev =
      ({ statusCode := 400, contentType := none,
         body := "Missing From or Body parameter" }, st) := by
  unfold lambda_handler
  simp [hsig]
  intro hA
  rcases hempty with he | he
  · exact absurd (by simpa using he) hA
  · simpa using he

/-- Witness for C7 (amended): a valid signature with a whitespace-only `Body`
is rejected with 400 and no state change. -/
theorem C7_witness :
    lambda_handler ⟨true, some "b", some "arn", some "t0ken", "unknown"⟩
      ⟨true, none, none, .failure⟩ 99 "2026-01-01T00:00:00" "20260101T000000Z"
      ⟨[], [], []⟩
      ⟨[("X-Twilio-Signature", "V5zt3QgGcmwwUkPYSUN/IM2oktg=")], "example.com",
        "/webhook", [("From", ["+1"]), ("Body", ["   "])]⟩ =
      ({ statusCode := 400, contentType := none,
         body := "Missing From or Body parameter" }, ⟨[], [], []⟩) :=
  C7_amended_validation_failure _ _ _ _ _ _ _ (by decide) (Or.inr (by decide))
